import Mathlib

/-!
Verification of the Vandri AI agent backend (src/main.py) against its
specification.  The query-resolution pipeline of the `/chat` endpoint
(cache lookup, inference fallback, cache write-through, durable logging),
the `/analytics` endpoint and the startup schema bootstrap are embedded
shallowly: the external backends (Redis, Groq, Postgres) are modelled by
an explicit `World` state carrying the cache contents, the interaction
log, configuration flags and failure flags, and each endpoint becomes a
pure function on that state.
-/

namespace Vandri

/-- The request body of POST /chat (pydantic model `UserQuery`). -/
structure UserQuery where
  user_id : Int
  text : String
deriving DecidableEq

/-- The success response body of POST /chat (pydantic model `AgentResponse`).
`latency_seconds` is wall-clock time and is not modelled. -/
structure AgentResponse where
  response : String
  source : String
deriving DecidableEq

/-- One row of the `interactions` table.  `id` is the SERIAL primary key
assigned at insert time; the `timestamp` column (assigned by the store)
is not modelled. -/
structure InteractionRecord where
  id : Nat
  user_id : Int
  input_text : String
  ai_response : String
  source : String
deriving DecidableEq

/-- A Redis entry as written by `setex`: the value together with the
time-to-live it was stored with. -/
structure CacheEntry where
  value : String
  ttl : Nat
deriving DecidableEq

/-- Which statement of the handler raised the exception that the outer
`except Exception` block of `chat_endpoint` turned into an HTTP 500. -/
inductive Cause where
  | cacheGet
  | llmNotConfigured
  | llmCall
  | cacheSet
  | db
deriving DecidableEq

/-- The HTTP-level outcome of a /chat request: either a JSON
`AgentResponse`, or an `HTTPException` with a status code and the cause. -/
inductive ChatOutcome where
  | ok (r : AgentResponse)
  | error (status : Nat) (cause : Cause)
deriving DecidableEq

/-- Whether the outcome is a success response. -/
def ChatOutcome.isOk : ChatOutcome → Bool
  | .ok _ => true
  | .error _ _ => false

/-- The combined state of the three external backends as `chat_endpoint`
sees them.  `redisConfigured` is whether `redis_client` is not None (the
module-level try/except leaves it None when `redis.Redis.from_url`
raises); `groqConfigured` is whether GROQ_API_KEY was set so that
`groq_client` is not None.  `cacheGetFails` / `cacheSetFails` /
`groqFails` / `dbFails` model the respective client call raising at
request time.  `groqReply` is the inference oracle: the completion text
returned by the Groq API for a given user text.  `log`/`nextId` model
the `interactions` table with its SERIAL id counter. -/
structure World where
  redisConfigured : Bool
  cache : List (String × CacheEntry)
  cacheGetFails : Bool
  cacheSetFails : Bool
  groqConfigured : Bool
  groqReply : String → String
  groqFails : Bool
  dbFails : Bool
  log : List InteractionRecord
  nextId : Nat

/-- The result of one run of `chat_endpoint`: the HTTP outcome, the
backend state afterwards, and how many times the inference API
(`groq_client.chat.completions.create`) was invoked. -/
structure ChatResult where
  outcome : ChatOutcome
  world : World
  inferCalls : Nat

/-- `redis_client.get(key)` as the handler sees it on the non-raising
path: the stored string for the key, if any (first binding wins, which
is how `setex` overwrites are modelled below). -/
def cacheGet (cache : List (String × CacheEntry)) (key : String) : Option String :=
  (cache.lookup key).map CacheEntry.value

/-- Step 3 of the handler (PERSISTENCE LAYER): `database.execute` of the
INSERT, then the success return.  `w` already carries any cache
write-through performed before the insert.  If the insert raises, the
outer handler returns HTTP 500 and no row is added. -/
def logPhase (w : World) (q : UserQuery) (source response_text : String)
    (calls : Nat) : ChatResult :=
  if w.dbFails then
    ⟨.error 500 .db, w, calls⟩
  else
    ⟨.ok ⟨response_text, source⟩,
     { w with
        log := w.log ++ [⟨w.nextId, q.user_id, q.text, response_text, source⟩],
        nextId := w.nextId + 1 },
     calls⟩

/-- Step 2 of the handler (INFERENCE LAYER), reached when
`response_text` is still falsy: raise when `groq_client` is None, call
the completion API, write through to Redis with `setex(text, 3600, v)`
when the client exists, then fall through to the persistence layer. -/
def inferPhase (w : World) (q : UserQuery) : ChatResult :=
  if w.groqConfigured then
    if w.groqFails then
      ⟨.error 500 .llmCall, w, 1⟩
    else
      let v := w.groqReply q.text
      if w.redisConfigured then
        if w.cacheSetFails then
          ⟨.error 500 .cacheSet, w, 1⟩
        else
          logPhase { w with cache := (q.text, ⟨v, 3600⟩) :: w.cache } q "llm (Groq)" v 1
      else
        logPhase w q "llm (Groq)" v 1
  else
    ⟨.error 500 .llmNotConfigured, w, 0⟩

/-- The POST /chat handler `chat_endpoint` of src/main.py.  Step 1
(CACHE LAYER): when `redis_client` exists, `get(query.text)`; a raising
`get` propagates to the outer `except` as HTTP 500.  The hit test is
Python truthiness (`if cached_response:`), so an empty-string value is
treated like a miss and control falls through to the inference layer
(`if not response_text:`). -/
def chat_endpoint (w : World) (q : UserQuery) : ChatResult :=
  if w.redisConfigured then
    if w.cacheGetFails then
      ⟨.error 500 .cacheGet, w, 0⟩
    else
      match cacheGet w.cache q.text with
      | some v =>
          if v = "" then inferPhase w q
          else logPhase w q "cache (Redis)" v 0
      | none => inferPhase w q
  else
    inferPhase w q

/-- The GET /analytics handler: `SELECT * FROM interactions ORDER BY id
DESC LIMIT 10`, with a raising query surfaced as HTTP 500 (`none`).
`insertDescById`/`orderByIdDesc` model the ORDER BY id DESC. -/
def insertDescById (r : InteractionRecord) :
    List InteractionRecord → List InteractionRecord
  | [] => [r]
  | x :: xs => if x.id ≤ r.id then r :: x :: xs else x :: insertDescById r xs

/-- Sort a list of rows by id, largest first, as ORDER BY id DESC does. -/
def orderByIdDesc : List InteractionRecord → List InteractionRecord
  | [] => []
  | x :: xs => insertDescById x (orderByIdDesc xs)

/-- The GET /analytics handler `get_analytics` of src/main.py. -/
def get_analytics (w : World) : Option (List InteractionRecord) :=
  if w.dbFails then none else some ((orderByIdDesc w.log).take 10)

/-- The state of the relational store as the startup hook sees it:
whether the `interactions` table exists, and its rows. -/
structure DbState where
  tableExists : Bool
  log : List InteractionRecord
deriving DecidableEq

/-- The `startup` lifecycle hook of src/main.py: connect, then CREATE
TABLE IF NOT EXISTS interactions.  The whole body is wrapped in
try/except, so when the connection fails the exception is swallowed
(only logged) and the store is left untouched while the app goes on to
accept traffic. -/
def startup (connectFails : Bool) (db : DbState) : DbState :=
  if connectFails then db else { db with tableExists := true }

end Vandri

namespace Vandri

/-! ### Concrete states used by witnesses and counterexamples -/

/-- A fully working backend state whose cache holds "Hello there" under
the key "hi". -/
def wHit : World :=
  { redisConfigured := true
    cache := [("hi", ⟨"Hello there", 3600⟩)]
    cacheGetFails := false
    cacheSetFails := false
    groqConfigured := true
    groqReply := fun _ => "Hello there"
    groqFails := false
    dbFails := false
    log := []
    nextId := 1 }

/-- A fully working backend state with an empty cache. -/
def wMiss : World := { wHit with cache := [] }

/-- A working state whose cache maps "hi" to the empty string. -/
def wEmptyVal : World := { wHit with cache := [("hi", ⟨"", 3600⟩)] }

/-- A state whose Redis client is absent (`redis_client is None`). -/
def wNoRedis : World := { wMiss with redisConfigured := false }

/-- A state whose Redis client exists but raises on `get`. -/
def wGetFail : World := { wMiss with cacheGetFails := true }

/-- A state with no Groq client (`GROQ_API_KEY` unset) and empty cache. -/
def wNoGroq : World := { wMiss with groqConfigured := false }

/-- A working state except that the `interactions` INSERT raises. -/
def wDbFail : World := { wHit with dbFails := true }

/-- The query {user_id: 1, text: "hi"} of the spec's scenario. -/
def qHi : UserQuery := ⟨1, "hi"⟩

end Vandri

namespace Vandri

/-! ### Helper lemmas about the phases of the pipeline -/

lemma logPhase_ok {w : World} {q : UserQuery} {s v : String} {c : Nat} {r : AgentResponse}
    (h : (logPhase w q s v c).outcome = .ok r) :
    r = ⟨v, s⟩ ∧
    (logPhase w q s v c).world.log
      = w.log ++ [⟨w.nextId, q.user_id, q.text, v, s⟩] := by
  unfold logPhase at h ⊢
  by_cases hdb : w.dbFails <;> simp [hdb] at h ⊢
  exact h.symm

lemma inferPhase_ok {w : World} {q : UserQuery} {r : AgentResponse}
    (h : (inferPhase w q).outcome = .ok r) :
    (inferPhase w q).world.log
      = w.log ++ [⟨w.nextId, q.user_id, q.text, r.response, r.source⟩] := by
  unfold inferPhase at h ⊢
  by_cases hg : w.groqConfigured <;> simp [hg] at h ⊢
  by_cases hgf : w.groqFails <;> simp [hgf] at h ⊢
  by_cases hr : w.redisConfigured <;> simp [hr] at h ⊢
  · by_cases hcs : w.cacheSetFails <;> simp [hcs] at h ⊢
    obtain ⟨h1, h2⟩ := logPhase_ok h
    rw [h2, h1]
  · obtain ⟨h1, h2⟩ := logPhase_ok h
    rw [h2, h1]

/-! ### Claim theorems -/

/-- Claim C3: every successful /chat request appends exactly one
`InteractionRecord` to the log (also on a cache hit), whose user_id,
input_text, ai_response and source match the request and the returned
envelope; in particular the stored source equals the envelope's source. -/
theorem chat_success_appends_one_matching_record
    {w : World} {q : UserQuery} {r : AgentResponse}
    (h : (chat_endpoint w q).outcome = .ok r) :
    (chat_endpoint w q).world.log
      = w.log ++ [⟨w.nextId, q.user_id, q.text, r.response, r.source⟩] := by
  unfold chat_endpoint at h ⊢
  by_cases hr : w.redisConfigured <;> simp [hr] at h ⊢
  · by_cases hgf : w.cacheGetFails <;> simp [hgf] at h ⊢
    rcases hc : cacheGet w.cache q.text with _ | v <;> simp [hc] at h ⊢
    · exact inferPhase_ok h
    · by_cases hv : v = "" <;> simp [hv] at h ⊢
      · exact inferPhase_ok h
      · obtain ⟨h1, h2⟩ := logPhase_ok h
        rw [h2, h1]
  · exact inferPhase_ok h

theorem chat_success_appends_one_matching_record_witness :
    (chat_endpoint wHit qHi).world.log
      = wHit.log ++ [⟨wHit.nextId, qHi.user_id, qHi.text, "Hello there", "cache (Redis)"⟩] := by
  have h : (chat_endpoint wHit qHi).outcome = .ok ⟨"Hello there", "cache (Redis)"⟩ := rfl
  exact chat_success_appends_one_matching_record h

end Vandri

namespace Vandri

/-- Claim C1 (amended): on a cache hit (Redis client present, `get` does
not raise, a non-empty value is stored under the query text) with a
working log store, /chat returns the cached value verbatim with source
"cache (Redis)" (the code's cache provenance tag, not the literal
"cache"), and the inference backend is not invoked. -/
theorem chat_cache_hit_serves_cached_value
    (w : World) (q : UserQuery) (v : String)
    (hr : w.redisConfigured = true) (hgf : w.cacheGetFails = false)
    (hv : cacheGet w.cache q.text = some v) (hne : v ≠ "")
    (hdb : w.dbFails = false) :
    (chat_endpoint w q).outcome = .ok ⟨v, "cache (Redis)"⟩ ∧
    (chat_endpoint w q).inferCalls = 0 := by
  simp [chat_endpoint, logPhase, hr, hgf, hv, hne, hdb]

theorem chat_cache_hit_serves_cached_value_witness :
    (chat_endpoint wHit qHi).outcome = .ok ⟨"Hello there", "cache (Redis)"⟩ ∧
    (chat_endpoint wHit qHi).inferCalls = 0 :=
  chat_cache_hit_serves_cached_value wHit qHi "Hello there" rfl rfl rfl
    (by decide) rfl

/-- Claim C1 counterexample: with the cache holding "Hello there" under
"hi", the /chat response's source field is the string "cache (Redis)",
not "cache" as the claim states. -/
theorem chat_cache_hit_source_counterexample :
    (chat_endpoint wHit qHi).outcome = .ok ⟨"Hello there", "cache (Redis)"⟩ ∧
    (chat_endpoint wHit qHi).outcome ≠ .ok ⟨"Hello there", "cache"⟩ := by
  constructor
  · rfl
  · decide

/-- Claim C2 (amended): on a cache miss (Redis client present, `get`
does not raise and yields no truthy value) with working Groq, Redis and
Postgres, /chat invokes the inference backend exactly once, stores the
completion under key `q.text` with TTL 3600 seconds, and returns it with
source "llm (Groq)" (the code's inference provenance tag, not the
literal "inference"). -/
theorem chat_cache_miss_infers_once_and_caches
    (w : World) (q : UserQuery)
    (hr : w.redisConfigured = true) (hgf : w.cacheGetFails = false)
    (hmiss : cacheGet w.cache q.text = none ∨ cacheGet w.cache q.text = some "")
    (hg : w.groqConfigured = true) (hq : w.groqFails = false)
    (hcs : w.cacheSetFails = false) (hdb : w.dbFails = false) :
    (chat_endpoint w q).inferCalls = 1 ∧
    (chat_endpoint w q).world.cache.lookup q.text
      = some ⟨w.groqReply q.text, 3600⟩ ∧
    (chat_endpoint w q).outcome = .ok ⟨w.groqReply q.text, "llm (Groq)"⟩ := by
  rcases hmiss with hm | hm <;>
    simp [chat_endpoint, inferPhase, logPhase, List.lookup,
      hr, hgf, hm, hg, hq, hcs, hdb]

theorem chat_cache_miss_infers_once_and_caches_witness :
    (chat_endpoint wMiss qHi).inferCalls = 1 ∧
    (chat_endpoint wMiss qHi).world.cache.lookup "hi"
      = some ⟨"Hello there", 3600⟩ ∧
    (chat_endpoint wMiss qHi).outcome = .ok ⟨"Hello there", "llm (Groq)"⟩ :=
  chat_cache_miss_infers_once_and_caches wMiss qHi rfl rfl (Or.inl rfl)
    rfl rfl rfl rfl

/-- Claim C2 counterexample: on a cache miss the /chat response's source
field is the string "llm (Groq)", not "inference" as the claim states. -/
theorem chat_cache_miss_source_counterexample :
    (chat_endpoint wMiss qHi).outcome = .ok ⟨"Hello there", "llm (Groq)"⟩ ∧
    (chat_endpoint wMiss qHi).outcome ≠ .ok ⟨"Hello there", "inference"⟩ := by
  constructor
  · rfl
  · decide

end Vandri

namespace Vandri

/-- Claim C4 (amended): when the Redis client is absent (the startup
try/except left it None), every lookup behaves as a miss and every store
is skipped, and /chat still completes through the inference and log
path with the cache untouched; however an exception raised by a present
Redis client during the request's `get` is NOT swallowed: it is
surfaced to the caller as an HTTP 500 and inference is never reached. -/
theorem chat_cache_unconfigured_noop_and_request_failure_surfaced
    (w : World) (q : UserQuery) :
    (w.redisConfigured = false → w.groqConfigured = true →
      w.groqFails = false → w.dbFails = false →
      (chat_endpoint w q).outcome = .ok ⟨w.groqReply q.text, "llm (Groq)"⟩ ∧
      (chat_endpoint w q).world.cache = w.cache ∧
      (chat_endpoint w q).world.log
        = w.log ++ [⟨w.nextId, q.user_id, q.text, w.groqReply q.text, "llm (Groq)"⟩]) ∧
    (w.redisConfigured = true → w.cacheGetFails = true →
      (chat_endpoint w q).outcome = .error 500 .cacheGet ∧
      (chat_endpoint w q).world = w ∧
      (chat_endpoint w q).inferCalls = 0) := by
  constructor
  · intro hr hg hq hdb
    simp [chat_endpoint, inferPhase, logPhase, hr, hg, hq, hdb]
  · intro hr hgf
    simp [chat_endpoint, hr, hgf]

theorem chat_cache_unconfigured_noop_and_request_failure_surfaced_witness :
    ((chat_endpoint wNoRedis qHi).outcome = .ok ⟨"Hello there", "llm (Groq)"⟩ ∧
     (chat_endpoint wNoRedis qHi).world.cache = wNoRedis.cache ∧
     (chat_endpoint wNoRedis qHi).world.log
       = wNoRedis.log ++ [⟨wNoRedis.nextId, 1, "hi", "Hello there", "llm (Groq)"⟩]) ∧
    ((chat_endpoint wGetFail qHi).outcome = .error 500 .cacheGet ∧
     (chat_endpoint wGetFail qHi).world = wGetFail ∧
     (chat_endpoint wGetFail qHi).inferCalls = 0) :=
  ⟨(chat_cache_unconfigured_noop_and_request_failure_surfaced wNoRedis qHi).1
      rfl rfl rfl rfl,
   (chat_cache_unconfigured_noop_and_request_failure_surfaced wGetFail qHi).2
      rfl rfl⟩

/-- Claim C4 counterexample: with a present Redis client whose `get`
raises, /chat neither treats the lookup as a miss nor completes via
inference and log: it surfaces an HTTP 500 cache failure to the caller,
invokes inference zero times, and appends nothing to the log. -/
theorem chat_cache_get_failure_surfaced_counterexample :
    (chat_endpoint wGetFail qHi).outcome = .error 500 .cacheGet ∧
    (chat_endpoint wGetFail qHi).outcome.isOk = false ∧
    (chat_endpoint wGetFail qHi).inferCalls = 0 ∧
    (chat_endpoint wGetFail qHi).world.log = [] := by
  refine ⟨rfl, rfl, rfl, rfl⟩

/-- Claim C5: when the Groq client is unconfigured and the cache phase
produces no truthy hit (no Redis client, or a non-raising `get` that
misses or returns the empty string), /chat errors with HTTP 500 ("LLM
service not configured."), appends no record, and never calls
inference. -/
theorem chat_llm_unconfigured_errors_without_logging
    (w : World) (q : UserQuery) (hg : w.groqConfigured = false)
    (hmiss : w.redisConfigured = false ∨
      (w.cacheGetFails = false ∧
        (cacheGet w.cache q.text = none ∨ cacheGet w.cache q.text = some ""))) :
    (chat_endpoint w q).outcome = .error 500 .llmNotConfigured ∧
    (chat_endpoint w q).world.log = w.log ∧
    (chat_endpoint w q).inferCalls = 0 := by
  rcases hmiss with hr | ⟨hgf, hm⟩
  · simp [chat_endpoint, inferPhase, hg, hr]
  · rcases hm with hm | hm <;>
      by_cases hr : w.redisConfigured <;>
        simp [chat_endpoint, inferPhase, hg, hgf, hm, hr]

theorem chat_llm_unconfigured_errors_without_logging_witness :
    (chat_endpoint wNoGroq qHi).outcome = .error 500 .llmNotConfigured ∧
    (chat_endpoint wNoGroq qHi).world.log = wNoGroq.log ∧
    (chat_endpoint wNoGroq qHi).inferCalls = 0 :=
  chat_llm_unconfigured_errors_without_logging wNoGroq qHi rfl
    (Or.inr ⟨rfl, Or.inl rfl⟩)

/-- Claim C6: when a response text was successfully obtained — expressed
as: the very same request succeeds when the log store works — but the
INSERT into `interactions` raises, /chat returns HTTP 500 instead of the
computed answer and the log is unchanged: there is no "answered but not
logged" success state. -/
theorem chat_log_failure_errors_despite_answer
    (w : World) (q : UserQuery) (hdb : w.dbFails = true)
    (hok : ((chat_endpoint { w with dbFails := false } q).outcome).isOk = true) :
    (chat_endpoint w q).outcome = .error 500 .db ∧
    (chat_endpoint w q).world.log = w.log := by
  unfold chat_endpoint at hok ⊢
  by_cases hr : w.redisConfigured <;> simp [hr] at hok ⊢
  · by_cases hgf : w.cacheGetFails <;> simp [hgf] at hok ⊢
    · simp [ChatOutcome.isOk] at hok
    · rcases hc : cacheGet w.cache q.text with _ | v <;> simp [hc] at hok ⊢
      · unfold inferPhase at hok ⊢
        by_cases hg : w.groqConfigured <;> simp [hg, ChatOutcome.isOk] at hok ⊢
        by_cases hq : w.groqFails <;> simp [hq, ChatOutcome.isOk] at hok ⊢
        by_cases hcs : w.cacheSetFails <;>
          simp [hr, hcs, ChatOutcome.isOk, logPhase, hdb] at hok ⊢
      · by_cases hv : v = "" <;> simp [hv] at hok ⊢
        · unfold inferPhase at hok ⊢
          by_cases hg : w.groqConfigured <;> simp [hg, ChatOutcome.isOk] at hok ⊢
          by_cases hq : w.groqFails <;> simp [hq, ChatOutcome.isOk] at hok ⊢
          by_cases hcs : w.cacheSetFails <;>
            simp [hr, hcs, ChatOutcome.isOk, logPhase, hdb] at hok ⊢
        · simp [logPhase, hdb]
  · unfold inferPhase at hok ⊢
    by_cases hg : w.groqConfigured <;> simp [hg, ChatOutcome.isOk] at hok ⊢
    by_cases hq : w.groqFails <;> simp [hq, ChatOutcome.isOk] at hok ⊢
    simp [hr, logPhase, hdb]

theorem chat_log_failure_errors_despite_answer_witness :
    (chat_endpoint wDbFail qHi).outcome = .error 500 .db ∧
    (chat_endpoint wDbFail qHi).world.log = wDbFail.log :=
  chat_log_failure_errors_despite_answer wDbFail qHi rfl rfl

end Vandri

namespace Vandri

/-! ### Ordering lemmas for the analytics query -/

lemma mem_insertDescById {x r : InteractionRecord} {l : List InteractionRecord} :
    x ∈ insertDescById r l ↔ x = r ∨ x ∈ l := by
  induction l with
  | nil => simp [insertDescById]
  | cons y ys ih =>
      unfold insertDescById
      by_cases h : y.id ≤ r.id <;> simp [h, ih]
      tauto

lemma sorted_insertDescById {r : InteractionRecord} {l : List InteractionRecord}
    (h : l.Pairwise (fun a b => b.id ≤ a.id)) :
    (insertDescById r l).Pairwise (fun a b => b.id ≤ a.id) := by
  induction l with
  | nil => simp [insertDescById]
  | cons y ys ih =>
      rw [List.pairwise_cons] at h
      obtain ⟨hy, hys⟩ := h
      unfold insertDescById
      by_cases hc : y.id ≤ r.id
      · simp only [if_pos hc]
        refine List.Pairwise.cons ?_ (List.Pairwise.cons hy hys)
        intro b hb
        rcases List.mem_cons.mp hb with rfl | hb
        · exact hc
        · exact le_trans (hy b hb) hc
      · simp only [if_neg hc]
        refine List.Pairwise.cons ?_ (ih hys)
        intro b hb
        rcases mem_insertDescById.mp hb with rfl | hb
        · exact le_of_not_le hc
        · exact hy b hb

lemma sorted_orderByIdDesc (l : List InteractionRecord) :
    (orderByIdDesc l).Pairwise (fun a b => b.id ≤ a.id) := by
  induction l with
  | nil => simp [orderByIdDesc]
  | cons y ys ih => exact sorted_insertDescById ih

lemma mem_orderByIdDesc {x : InteractionRecord} {l : List InteractionRecord} :
    x ∈ orderByIdDesc l ↔ x ∈ l := by
  induction l with
  | nil => simp [orderByIdDesc]
  | cons y ys ih => simp [orderByIdDesc, mem_insertDescById, ih]

/-- Claim C7: whenever /analytics answers (the SELECT does not raise),
it returns at most 10 records, sorted by id largest (newest) first, all
drawn from the interactions table. -/
theorem analytics_at_most_ten_sorted_desc
    (w : World) (l : List InteractionRecord)
    (h : get_analytics w = some l) :
    l.length ≤ 10 ∧ l.Pairwise (fun a b => b.id ≤ a.id) ∧ l ⊆ w.log := by
  unfold get_analytics at h
  by_cases hdb : w.dbFails <;> simp [hdb] at h
  subst h
  refine ⟨?_, ?_, ?_⟩
  · simp
  · exact List.Pairwise.sublist (List.take_sublist 10 _) (sorted_orderByIdDesc _)
  · intro x hx
    exact mem_orderByIdDesc.mp (List.mem_of_mem_take hx)

end Vandri

namespace Vandri

/-- An interactions table with two rows, appended in id order. -/
def rowA : InteractionRecord := ⟨1, 1, "hi", "Hello there", "llm (Groq)"⟩

/-- The second, newer row of the two-row table. -/
def rowB : InteractionRecord := ⟨2, 2, "hi", "Hello there", "cache (Redis)"⟩

/-- A working backend state whose interactions table holds two rows. -/
def wTwoRows : World := { wHit with log := [rowA, rowB], nextId := 3 }

theorem analytics_at_most_ten_sorted_desc_witness :
    ([rowB, rowA] : List InteractionRecord).length ≤ 10 ∧
    ([rowB, rowA] : List InteractionRecord).Pairwise (fun a b => b.id ≤ a.id) ∧
    ([rowB, rowA] : List InteractionRecord) ⊆ wTwoRows.log :=
  analytics_at_most_ten_sorted_desc wTwoRows [rowB, rowA] rfl

/-- Claim C8 (amended): provided the startup database connection
succeeds, the schema bootstrap is idempotent — the table exists
afterwards, running it twice equals running it once, and a state that
already has the table is unchanged.  When the connection fails, the
exception is swallowed and the app serves traffic without the table. -/
theorem startup_connect_ok_idempotent_schema (db : DbState) :
    (startup false db).tableExists = true ∧
    startup false (startup false db) = startup false db ∧
    (db.tableExists = true → startup false db = db) := by
  refine ⟨rfl, rfl, ?_⟩
  intro h
  cases db with
  | mk t l => cases t <;> simp_all [startup]

theorem startup_connect_ok_idempotent_schema_witness :
    (startup false ⟨true, []⟩).tableExists = true ∧
    startup false (startup false ⟨true, []⟩) = startup false ⟨true, []⟩ ∧
    startup false ⟨true, []⟩ = (⟨true, []⟩ : DbState) :=
  ⟨(startup_connect_ok_idempotent_schema ⟨true, []⟩).1,
   (startup_connect_ok_idempotent_schema ⟨true, []⟩).2.1,
   (startup_connect_ok_idempotent_schema ⟨true, []⟩).2.2 rfl⟩

/-- Claim C8 counterexample: when the startup connection raises, the
hook swallows the exception and completes, yet the interactions table
does not exist afterwards. -/
theorem startup_connect_failure_counterexample :
    (startup true ⟨false, []⟩).tableExists = false := rfl

end Vandri

namespace Vandri

/-- `redis_client.get` on a cache just written by `setex` under the same
key finds the written entry. -/
lemma cacheGet_cons_self (k : String) (e : CacheEntry)
    (c : List (String × CacheEntry)) :
    cacheGet ((k, e) :: c) k = some e.value := by
  simp [cacheGet, List.lookup]

/-- Claim C9: a cache entry holding the empty string fails the Python
truthiness test `if cached_response:`, so /chat treats it as a miss —
inference is invoked once and the envelope carries the inference tag
"llm (Groq)", not the cache tag "cache (Redis)". -/
theorem chat_empty_string_cache_value_is_miss
    (w : World) (q : UserQuery)
    (hr : w.redisConfigured = true) (hgf : w.cacheGetFails = false)
    (hv : cacheGet w.cache q.text = some "")
    (hg : w.groqConfigured = true) (hq : w.groqFails = false)
    (hcs : w.cacheSetFails = false) (hdb : w.dbFails = false) :
    (chat_endpoint w q).inferCalls = 1 ∧
    (chat_endpoint w q).outcome = .ok ⟨w.groqReply q.text, "llm (Groq)"⟩ ∧
    ("llm (Groq)" : String) ≠ "cache (Redis)" := by
  refine ⟨?_, ?_, by decide⟩ <;>
    simp [chat_endpoint, inferPhase, logPhase, hr, hgf, hv, hg, hq, hcs, hdb]

theorem chat_empty_string_cache_value_is_miss_witness :
    (chat_endpoint wEmptyVal qHi).inferCalls = 1 ∧
    (chat_endpoint wEmptyVal qHi).outcome = .ok ⟨"Hello there", "llm (Groq)"⟩ ∧
    ("llm (Groq)" : String) ≠ "cache (Redis)" :=
  chat_empty_string_cache_value_is_miss wEmptyVal qHi rfl rfl rfl rfl rfl rfl rfl

/-- Claim C10: the cache key is the raw query text, independent of
user_id.  After a first user's miss is resolved by inference (to a
non-empty completion) and cached, a second, different user asking the
same text is served that first user's result verbatim from the cache,
with no inference call. -/
theorem chat_cache_shared_across_users
    (w : World) (t : String) (u1 u2 : Int) (_hu : u1 ≠ u2)
    (hr : w.redisConfigured = true) (hgf : w.cacheGetFails = false)
    (hm : cacheGet w.cache t = none)
    (hg : w.groqConfigured = true) (hq : w.groqFails = false)
    (hcs : w.cacheSetFails = false) (hdb : w.dbFails = false)
    (hne : w.groqReply t ≠ "") :
    (chat_endpoint w ⟨u1, t⟩).outcome = .ok ⟨w.groqReply t, "llm (Groq)"⟩ ∧
    (chat_endpoint (chat_endpoint w ⟨u1, t⟩).world ⟨u2, t⟩).outcome
      = .ok ⟨w.groqReply t, "cache (Redis)"⟩ ∧
    (chat_endpoint (chat_endpoint w ⟨u1, t⟩).world ⟨u2, t⟩).inferCalls = 0 := by
  have h1 : chat_endpoint w ⟨u1, t⟩
      = logPhase { w with cache := (t, ⟨w.groqReply t, 3600⟩) :: w.cache }
          ⟨u1, t⟩ "llm (Groq)" (w.groqReply t) 1 := by
    simp [chat_endpoint, inferPhase, hr, hgf, hm, hg, hq, hcs]
  rw [h1]
  simp [chat_endpoint, logPhase, cacheGet_cons_self, hr, hgf, hdb, hne]

theorem chat_cache_shared_across_users_witness :
    (chat_endpoint wMiss ⟨1, "hi"⟩).outcome = .ok ⟨"Hello there", "llm (Groq)"⟩ ∧
    (chat_endpoint (chat_endpoint wMiss ⟨1, "hi"⟩).world ⟨2, "hi"⟩).outcome
      = .ok ⟨"Hello there", "cache (Redis)"⟩ ∧
    (chat_endpoint (chat_endpoint wMiss ⟨1, "hi"⟩).world ⟨2, "hi"⟩).inferCalls = 0 :=
  chat_cache_shared_across_users wMiss "hi" 1 2 (by decide) rfl rfl rfl rfl rfl
    rfl rfl (by decide)

end Vandri
